import Mathlib

/-!
Verification of the natural-language specification of the
biospark-health-ai repository against its code, via a shallow embedding
of the two source files the claims concern:

* `src/supabase_migration_orchestrator.py` - the Supabase/pgvector
  schema-migration pipeline (environment validation, pre-flight checks,
  row backup, ordered SQL-file execution, row replay, validation).
* `src/tools/summarize.py` - the BMAD test-result confidence-score
  calculator (five weighted category analyzers).

Python functions become Lean functions; database and filesystem effects
become explicit data (oracles for query outcomes, traces of issued
operations, explicit state records); Python exceptions become `Except`
values; Python floats become `Rat` values.
-/

namespace Biospark

/-! ## Data model for the migration orchestrator

Rows are modelled by the column values that the orchestrator's SQL
actually branches on: the conflict-target column of each `INSERT ...
ON CONFLICT` statement (`id` for `rag_documents`, `session_id` for
`user_sessions`).  A database table is a list of rows; a table that does
not exist is `none`. -/

structure RagDoc where
  id : String
deriving DecidableEq, Repr

structure UserSession where
  id : String
  session_id : String
deriving DecidableEq, Repr

structure ConvMessage where
  id : String
deriving DecidableEq, Repr

/-- The database state restricted to the three tables the orchestrator
backs up and replays (`none` = the table does not exist). -/
structure Db where
  rag_documents : Option (List RagDoc)
  user_sessions : Option (List UserSession)
  conversation_messages : Option (List ConvMessage)
deriving DecidableEq, Repr

/-- The in-memory backup structure built by `backup_existing_data`
(lines 136-141 of `supabase_migration_orchestrator.py`). -/
structure BackupData where
  timestamp : String
  rag_documents : List RagDoc
  user_sessions : List UserSession
  conversation_messages : List ConvMessage
deriving DecidableEq, Repr

/-- SQL commands the orchestrator issues through cursors, as a trace. -/
inductive SqlOp
  | selectTableExists (table : String)
  | selectRows (table : String) (limit : Nat)
  | insertRow (table : String) (key : String)
deriving DecidableEq, Repr

/-- A SQL command that only reads database state. -/
def SqlOp.isRead : SqlOp → Bool
  | SqlOp.selectTableExists _ => true
  | SqlOp.selectRows _ _ => true
  | SqlOp.insertRow _ _ => false

/-! ## validate_environment (lines 43-61) and __init__ (lines 37-41) -/

/-- The fixed list of required environment variables (lines 45-50). -/
def required_vars : List String :=
  ["NEXT_PUBLIC_SUPABASE_URL", "NEXT_PUBLIC_SUPABASE_ANON_KEY",
   "SUPABASE_SERVICE_ROLE_KEY", "OPENAI_API_KEY"]

/-- Python truthiness of `os.getenv(var)`: `not os.getenv(var)` is true
when the variable is unset (`None`) or set to the empty string. -/
def envFalsy : Option String → Bool
  | none => true
  | some s => s = ""

/-- The `missing_vars` list accumulated by the loop at lines 52-55. -/
def missing_vars (getenv : String → Option String) : List String :=
  required_vars.filter (fun v => envFalsy (getenv v))

/-- Lines 57-61: raise `ValueError` when any required variable is
missing, otherwise return normally.  The raise is an `Except.error`. -/
def validate_environment (getenv : String → Option String) : Except String Unit :=
  if missing_vars getenv = [] then Except.ok ()
  else Except.error "Missing environment variables"

/-- Outcome of `SupabaseMigrationOrchestrator.__init__` (lines 37-41:
`validate_environment` then `setup_connections`), together with the
number of database operations (connection attempts) performed.
`connectOk` is the oracle for whether `psycopg2.connect` succeeds. -/
structure InitResult where
  outcome : Except String Unit
  dbOps : Nat
deriving Repr

def orchestrator_init (getenv : String → Option String) (connectOk : Bool) : InitResult :=
  match validate_environment getenv with
  | Except.error e => { outcome := Except.error e, dbOps := 0 }
  | Except.ok _ =>
      if connectOk then { outcome := Except.ok (), dbOps := 1 }
      else { outcome := Except.error "Connection setup failed", dbOps := 1 }

/-! ## execute_migration_file (lines 116-132)

Python exceptions are modelled with an explicit `Except` channel:
`Except.ok b` is a normal return of `b`, `Except.error e` is an
exception escaping the function unhandled. -/

inductive PyExc
  | fileNotFound (path : String)
  | dbError (sql : String)
deriving DecidableEq, Repr

/-- `open(file_path).read()`: the filesystem oracle `fs` maps a path to
its contents, or `none` when no such file exists (then `open` raises
`FileNotFoundError`). -/
def openRead (fs : String → Option String) (path : String) : Except PyExc String :=
  match fs path with
  | none => Except.error (PyExc.fileNotFound path)
  | some content => Except.ok content

/-- `cursor.execute(sql_content)`: the oracle `sqlOk` says whether the
database accepts the batch; a rejected batch raises. -/
def executeSql (sqlOk : String → Bool) (sql : String) : Except PyExc Unit :=
  if sqlOk sql then Except.ok () else Except.error (PyExc.dbError sql)

/-- The body of the `try` block at lines 118-128: read the file, execute
its contents, return `True`. -/
def execute_migration_file_body (fs : String → Option String) (sqlOk : String → Bool)
    (path : String) : Except PyExc Bool := do
  let sql ← openRead fs path
  let _ ← executeSql sqlOk sql
  pure true

/-- `execute_migration_file` (lines 116-132): the `except Exception`
handler at lines 130-132 catches every exception of the body, logs it
and returns `False`; no exception escapes. -/
def execute_migration_file (fs : String → Option String) (sqlOk : String → Bool)
    (path : String) : Except PyExc Bool :=
  match execute_migration_file_body fs sqlOk path with
  | Except.ok b => Except.ok b
  | Except.error _ => Except.ok false

/-- The boolean a caller of `execute_migration_file` observes (the
`Except.error` case is unreachable, see `execute_migration_file`). -/
def execute_migration_file_ok (fs : String → Option String) (sqlOk : String → Bool)
    (path : String) : Bool :=
  match execute_migration_file fs sqlOk path with
  | Except.ok b => b
  | Except.error _ => false

/-! ## backup_existing_data (lines 134-184) -/

/-- The `LIMIT 1000` row cap of the backup queries (lines 147-149). -/
def backup_row_limit : Nat := 1000

/-- The fixed list of tables backed up (lines 146-150). -/
def tables_to_backup : List String :=
  ["rag_documents", "user_sessions", "conversation_messages"]

/-- One iteration of the loop at lines 152-170 for a table: check
existence via `information_schema.tables`; when present, select up to
`backup_row_limit` rows; when absent, skip (the backup entry keeps its
initial `[]`).  Returns the captured rows and the SQL issued. -/
def backupOf (name : String) : Option (List α) → List α × List SqlOp
  | none => ([], [SqlOp.selectTableExists name])
  | some rows =>
      (rows.take backup_row_limit,
       [SqlOp.selectTableExists name, SqlOp.selectRows name backup_row_limit])

/-- The timestamped backup file path (line 173). -/
def backup_file_name (now : String) : String :=
  "supabase_migration_backup/backup_" ++ now ++ ".json"

/-- The full outcome of `backup_existing_data`: the in-memory structure
returned, the database state afterwards, the SQL trace, and the files
written. -/
structure BackupResult where
  data : BackupData
  dbAfter : Db
  ops : List SqlOp
  filesWritten : List String
deriving Repr

/-- `backup_existing_data` (lines 134-184): capture up to 1000 rows from
each of the three fixed tables (absent tables are skipped), write one
timestamped JSON file, return the in-memory structure.  All issued SQL
is reads, so the database state is returned unchanged. -/
def backup_existing_data (now : String) (db : Db) : BackupResult :=
  let r := backupOf "rag_documents" db.rag_documents
  let u := backupOf "user_sessions" db.user_sessions
  let c := backupOf "conversation_messages" db.conversation_messages
  { data := { timestamp := now, rag_documents := r.1,
              user_sessions := u.1, conversation_messages := c.1 },
    dbAfter := db,
    ops := r.2 ++ u.2 ++ c.2,
    filesWritten := [backup_file_name now] }

/-! ## migrate_existing_embeddings (lines 186-245)

The whole function body is one `try` block containing a loop over the
`rag_documents` rows and then a loop over the `user_sessions` rows, each
row inserted with `INSERT ... ON CONFLICT (<key>) DO NOTHING`; the
conflict key is `id` for `rag_documents` (line 202) and `session_id`
for `user_sessions` (line 227).  The connection is in autocommit mode,
so an exception leaves the rows inserted so far in place.  The single
`except` at lines 243-245 logs the exception and returns `False`. -/

/-- One `INSERT ... ON CONFLICT (key) DO NOTHING`: a no-op when some
existing row has the same conflict-key value, otherwise an append. -/
def insert_on_conflict (keyOf : α → String) (tbl : List α) (row : α) : List α :=
  if tbl.any (fun r => keyOf r = keyOf row) then tbl else tbl ++ [row]

/-- The per-table insertion loop: insert each backed-up row in order;
the oracle `raises` says whether `cursor.execute` raises on a row, and a
raise stops the loop with the table as inserted so far. -/
def replayRows (keyOf : α → String) (raises : α → Bool) :
    List α → List α → Bool × List α
  | tbl, [] => (true, tbl)
  | tbl, row :: rest =>
      if raises row then (false, tbl)
      else replayRows keyOf raises (insert_on_conflict keyOf tbl row) rest

/-- One table phase of the replay (the `if backup_data.get(...)` guard
at line 192 resp. 218 plus the row loop): skipped when the backup holds
no rows for the table; a raising insert, or a target table that does not
exist (the `INSERT` raises), makes the phase fail with the rows inserted
so far kept (the connection is in autocommit mode). -/
def replayTable (keyOf : α → String) (raises : α → Bool) (rows : List α) :
    Option (List α) → Bool × Option (List α)
  | none => if rows.isEmpty then (true, none) else (false, none)
  | some tbl =>
      if rows.isEmpty then (true, some tbl)
      else
        let r := replayRows keyOf raises tbl rows
        (r.1, some r.2)

/-- `migrate_existing_embeddings` (lines 186-245) over a database state:
replay `rag_documents` (when the backup holds any), then
`user_sessions` (when the backup holds any); `conversation_messages`
rows of the backup are never replayed.  An exception anywhere falls to
the one handler at lines 243-245: the function returns `false` at once,
skipping everything after the raising statement - in particular a
failure in the `rag_documents` phase skips the `user_sessions` phase. -/
def migrate_existing_embeddings (ragRaises : RagDoc → Bool) (sesRaises : UserSession → Bool)
    (backup : BackupData) (db : Db) : Bool × Db :=
  let rag := replayTable RagDoc.id ragRaises backup.rag_documents db.rag_documents
  if rag.1 then
    let db1 : Db := { db with rag_documents := rag.2 }
    let ses := replayTable UserSession.session_id sesRaises backup.user_sessions
      db1.user_sessions
    (ses.1, { db1 with user_sessions := ses.2 })
  else
    (false, { db with rag_documents := rag.2 })

/-! ## validate_migration (lines 247-311) and run_migration (lines 313-378) -/

/-- The slice of the validation report that concerns the modelled
tables: which expected tables exist and their row counts (lines
264-278).  The function only reads catalog state and row counts. -/
structure ValidationResults where
  tables_created : List String
  data_migrated : List (String × Nat)
deriving DecidableEq, Repr

/-- One iteration of the table checklist (lines 270-278): record the
table when it exists, together with its `COUNT(*)`. -/
def validateTable (name : String) : Option (List β) → List String × List (String × Nat)
  | none => ([], [])
  | some rows => ([name], [(name, rows.length)])

def validate_migration (db : Db) : ValidationResults :=
  let r := validateTable "rag_documents" db.rag_documents
  let u := validateTable "user_sessions" db.user_sessions
  let c := validateTable "conversation_messages" db.conversation_messages
  { tables_created := r.1 ++ u.1 ++ c.1,
    data_migrated := r.2 ++ u.2 ++ c.2 }

/-- `test_supabase_connection` (lines 88-98): issue `SELECT version()`;
`true` on success, `false` when the query raises. -/
def test_supabase_connection (connectionOk : Bool) : Bool := connectionOk

/-- `check_pgvector_extension` (lines 100-114): query
`pg_available_extensions` for the row named `vector`; `true` when the
row exists, `false` when it does not or when the query raises. -/
def check_pgvector_extension (pgvectorRow : Bool) (queryRaises : Bool) : Bool :=
  if queryRaises then false else pgvectorRow

/-- The fixed ordered list of schema-migration files (lines 334-339). -/
def migration_files : List String :=
  ["migrations/000_add_pgvector.sql",
   "migrations/001_create_rag_schema.sql",
   "migrations/002_create_memory_schema.sql",
   "migrations/003_create_functions.sql"]

/-- The schema-file loop at lines 341-344: execute the files in list
order; the first failing file ends the loop with `false`.  Also returns
the list of files on which `execute_migration_file` was invoked, in
invocation order. -/
def runSchemaPhase (fileOk : String → Bool) : List String → Bool × List String
  | [] => (true, [])
  | f :: rest =>
      if fileOk f then
        let r := runSchemaPhase fileOk rest
        (r.1, f :: r.2)
      else (false, [f])

/-- The environment a run of the orchestrator executes against: oracles
for every external outcome the code branches on. -/
structure MigEnv where
  /-- whether `SELECT version()` succeeds -/
  connectionOk : Bool
  /-- whether `pg_available_extensions` holds the `vector` row -/
  pgvectorRow : Bool
  /-- whether the pgvector catalog query raises -/
  pgvectorQueryRaises : Bool
  /-- the filesystem: path to contents -/
  fs : String → Option String
  /-- whether the database accepts a SQL batch -/
  sqlOk : String → Bool
  /-- the pre-migration database state -/
  db : Db
  /-- timestamp of the run -/
  now : String
  /-- the database state after the schema files ran (the SQL files are
  not in the repository, so their effect is an oracle) -/
  postDb : Db
  /-- whether a `rag_documents` replay insert raises -/
  ragRaises : RagDoc → Bool
  /-- whether a `user_sessions` replay insert raises -/
  sesRaises : UserSession → Bool

/-- `run_migration` (lines 313-378) generalized over the ordered list of
schema files.  Returns the success boolean and the trace of schema files
executed.  Phase order: pre-flight checks (abort on failure), backup,
schema files (abort on first failure), data replay (its failure only
logs a warning), validation, summary. -/
def run_migration_with (env : MigEnv) (files : List String) : Bool × List String :=
  if test_supabase_connection env.connectionOk = false then (false, [])
  else if check_pgvector_extension env.pgvectorRow env.pgvectorQueryRaises = false then
    (false, [])
  else
    let backup := (backup_existing_data env.now env.db).data
    let schema := runSchemaPhase (execute_migration_file_ok env.fs env.sqlOk) files
    if schema.1 = false then (false, schema.2)
    else
      let dataPhase := migrate_existing_embeddings env.ragRaises env.sesRaises backup env.postDb
      let _report := validate_migration dataPhase.2
      (true, schema.2)

/-- `run_migration` with its hard-coded file list (lines 334-339). -/
def run_migration (env : MigEnv) : Bool × List String :=
  run_migration_with env migration_files

/-- `main` (lines 380-396): construct the orchestrator (its `__init__`
may raise), run the migration, exit 0 on success and 1 otherwise; any
exception also exits 1. -/
def main_exit (getenv : String → Option String) (connectOk : Bool) (env : MigEnv) : Nat :=
  match (orchestrator_init getenv connectOk).outcome with
  | Except.error _ => 1
  | Except.ok _ => if (run_migration env).1 then 0 else 1

/-! ## BMADValidator (src/tools/summarize.py)

Each analyzer reads result files and reduces them, via regular
expressions and line filters, to a rational score.  The embedding takes
the parse results as input (an outer `none` models the analyzer hitting
an exception, e.g. a missing input file, in which case its `except`
handler returns 0) and reproduces the arithmetic over `Rat` in place of
Python floats.  All extracted numbers keep their parsed values; counts
of matching lines are lists of booleans (one per matched line). -/

/-- Matching lines among a filtered set of lines, e.g. lines with
`STATUS:200` or `STATUS:401` among the `ENDPOINT:` lines. -/
def countTrue (l : List Bool) : Nat := (l.filter id).length

/-- Parse results of `deployment_accessibility.txt` and
`api_endpoints.txt` (lines 33-70 of summarize.py). -/
structure DeploymentInput where
  /-- the `HTTP_STATUS:(\d+)` capture, when matched -/
  httpStatus : Option String
  /-- the `TIME_TOTAL:([\d.]+)` capture, when matched -/
  timeTotal : Option Rat
  /-- per `ENDPOINT:` line of `api_endpoints.txt`: does it carry
  `STATUS:200` or `STATUS:401`; `none` when the file cannot be read
  (the second `open` raises after the first file was scored) -/
  apiLines : Option (List Bool)

/-- `analyze_deployment_results` (lines 28-78): 50 for an accessible
URL (status 200 or 401), 25 for a response under 2 s, up to 25 for the
API-endpoint success rate, clamped by `min(score, 100)`; any exception
yields 0. -/
def analyze_deployment_results : Option DeploymentInput → Rat
  | none => 0
  | some d =>
      match d.apiLines with
      | none => 0
      | some api =>
          let s1 : Rat := if d.httpStatus = some "200" ∨ d.httpStatus = some "401" then 50 else 0
          let s2 : Rat :=
            match d.timeTotal with
            | some t => if t < 2 then 25 else 0
            | none => 0
          let s3 : Rat :=
            if 0 < api.length then
              ((countTrue api : Rat) / (api.length : Rat) * 100) / 100 * 25
            else 0
          min (s1 + s2 + s3) 100

/-- The three substring checks on `security_headers_raw.txt`
(lines 123-131). -/
structure RawHeaders where
  hsts : Bool
  xfo : Bool
  secureCookie : Bool

/-- Parse results of `security_headers.txt` and
`security_headers_raw.txt` (lines 85-131). -/
structure SecurityInput where
  /-- per `HEADER:` line: does it carry `STATUS:PRESENT` -/
  headerLines : List Bool
  /-- `none` when `security_headers_raw.txt` cannot be read (raises
  after the base score was computed; the handler returns 0) -/
  raw : Option RawHeaders

/-- `analyze_security_results` (lines 80-141): up to 60 for detected
headers, a flat 40 for application-level features, 5 per raw-header
check, clamped by `min(score, 100)`; any exception yields 0. -/
def analyze_security_results : Option SecurityInput → Rat
  | none => 0
  | some s =>
      match s.raw with
      | none => 0
      | some raw =>
          let base : Rat :=
            if 0 < s.headerLines.length then
              (countTrue s.headerLines : Rat) / (s.headerLines.length : Rat) * 60
            else 0
          let features : Rat := 40
          let prod : Rat :=
            (if raw.hsts then 5 else 0) + (if raw.xfo then 5 else 0)
              + (if raw.secureCookie then 5 else 0)
          min (base + features + prod) 100

/-- Parse results of `hipaa_tests.json` and `hipaa_endpoints.txt`
(lines 148-193).  `numPassedTests` and `numTotalTests` are whatever
integers the JSON holds (`numTotalTests` defaults to 1 when absent). -/
structure HipaaInput where
  success : Bool
  numPassedTests : Int
  numTotalTests : Int
  /-- per `ENDPOINT:` line of `hipaa_endpoints.txt`; `none` when the
  file cannot be read (the inner `try` just passes) -/
  endpoints : Option (List Bool)

/-- The endpoint part of the HIPAA score (lines 174-193): 30 percent
weight on the endpoint success rate. -/
def hipaaEndpointScore : Option (List Bool) → Rat
  | none => 0
  | some lines =>
      if 0 < lines.length then
        ((countTrue lines : Rat) / (lines.length : Rat) * 100) * 0.3
      else 0

/-- `analyze_hipaa_results` (lines 143-201): when the JSON reports
success, 70 percent weight on the passed/total ratio (a zero
`numTotalTests` raises `ZeroDivisionError`, so the handler returns 0
before the endpoint file is read); otherwise a flat 70; plus the
endpoint score; clamped by `min(score, 100)`. -/
def analyze_hipaa_results : Option HipaaInput → Rat
  | none => 0
  | some h =>
      if h.success then
        if h.numTotalTests = 0 then 0
        else
          min ((((h.numPassedTests : Rat) / (h.numTotalTests : Rat)) * 100) * 0.7
                + hipaaEndpointScore h.endpoints) 100
      else min (70 + hipaaEndpointScore h.endpoints) 100

/-- The k6 metrics extracted from `performance_output.txt`
(lines 213-219); the regex `([\d.]+)` only matches digits and dots, so
parsed durations are nonnegative, but the embedding does not rely on
that. -/
structure K6Input where
  avg : Option Rat
  p95 : Option Rat
  checks : Option Rat

/-- Parse results for `analyze_performance_results` (lines 203-286). -/
structure PerformanceInput where
  /-- `none` when `performance_output.txt` cannot be read: then the
  fallback path runs -/
  k6 : Option K6Input
  /-- fallback (lines 263-278): the `TIME_TOTAL` capture of
  `deployment_accessibility.txt`; the outer `none` means that file
  cannot be read either (score 50) -/
  fallbackTime : Option (Option Rat)

/-- `analyze_performance_results` (lines 203-286): graded bonuses for
average duration, 95th percentile and check success rate from the k6
output, or the curl fallback, clamped by `min(score, 100)`. -/
def analyze_performance_results : Option PerformanceInput → Rat
  | none => 0
  | some p =>
      let score : Rat :=
        match p.k6 with
        | some k =>
            let s1 : Rat :=
              match k.avg with
              | some a => if a < 25 then 50 else if a < 50 then 40 else if a < 100 then 25 else 0
              | none => 0
            let s2 : Rat :=
              match k.p95 with
              | some q => if q < 50 then 40 else if q < 100 then 30 else 0
              | none => 0
            let s3 : Rat :=
              match k.checks with
              | some c => if c = 100 then 10 else if 95 < c then 8 else 0
              | none => 0
            s1 + s2 + s3
        | none =>
            match p.fallbackTime with
            | none => 50
            | some (some t) => if t < 1 then 85 else 60
            | some none => 60
      min score 100

/-- `analyze_integration_results` (lines 288-325): the success rate over
the `ENDPOINT:`/`DB_TEST` lines of `integration_tests.txt` (200 or 401
counts as success), 0 when no lines or on exception.  No `min` clamp is
applied in the source. -/
def analyze_integration_results : Option (List Bool) → Rat
  | none => 0
  | some lines =>
      if 0 < lines.length then
        (countTrue lines : Rat) / (lines.length : Rat) * 100
      else 0

/-- The category weights of `BMADValidator.__init__` (lines 18-24). -/
def weights : List (String × Rat) :=
  [("deployment", 0.20), ("security", 0.20), ("hipaa", 0.25),
   ("performance", 0.20), ("integration", 0.15)]

/-- The parse results of one run's input files, one slot per category
analyzer. -/
structure ResultsInputs where
  deployment : Option DeploymentInput
  security : Option SecurityInput
  hipaa : Option HipaaInput
  performance : Option PerformanceInput
  integration : Option (List Bool)

/-- `self.scores[category]` after the five analyzer calls at
lines 333-337. -/
def categoryScore (r : ResultsInputs) : String → Rat
  | "deployment" => analyze_deployment_results r.deployment
  | "security" => analyze_security_results r.security
  | "hipaa" => analyze_hipaa_results r.hipaa
  | "performance" => analyze_performance_results r.performance
  | "integration" => analyze_integration_results r.integration
  | _ => 0

/-- `calculate_confidence_score` (lines 327-353): the weighted sum of
the five category scores. -/
def calculate_confidence_score (r : ResultsInputs) : Rat :=
  (weights.map (fun w => categoryScore r w.1 * w.2)).sum

/-- The HIPAA test counts parsed from `hipaa_tests.json` are
nonnegative (true of every well-formed test report; a malformed report
can hold any JSON integer). -/
def hipaaCountsNonneg (r : ResultsInputs) : Prop :=
  ∀ h, r.hipaa = some h → 0 ≤ h.numPassedTests ∧ 0 ≤ h.numTotalTests

/-! ## Concrete scenarios used by witnesses and counterexamples -/

/-- A freshly migrated database: the three tables exist and are empty. -/
def freshDb : Db :=
  { rag_documents := some [], user_sessions := some [], conversation_messages := some [] }

/-- A filesystem holding only the first migration file. -/
def sampleFs : String → Option String :=
  fun p => if p = "migrations/000_add_pgvector.sql" then some "CREATE EXTENSION vector;" else none

/-- A healthy environment over `sampleFs`. -/
def envW : MigEnv :=
  { connectionOk := true, pgvectorRow := true, pgvectorQueryRaises := false,
    fs := sampleFs, sqlOk := fun _ => true, db := freshDb, now := "t",
    postDb := freshDb, ragRaises := fun _ => false, sesRaises := fun _ => false }

/-- `envW` against a database lacking the vector extension. -/
def envNoVector : MigEnv := { envW with pgvectorRow := false }

/-- A pre-existing database whose only rows live in `conversation_messages`. -/
def convOnlyDb : Db :=
  { rag_documents := some [], user_sessions := some [],
    conversation_messages := some [{ id := "m1" }] }

/-- A pre-existing database with two RAG documents and one user session. -/
def roundtripDb : Db :=
  { rag_documents := some [{ id := "a" }, { id := "b" }],
    user_sessions := some [{ id := "i1", session_id := "s1" }],
    conversation_messages := some [] }

/-- A backup holding one RAG document and one user session. -/
def backupX : BackupData :=
  { timestamp := "t", rag_documents := [{ id := "d1" }],
    user_sessions := [{ id := "s1", session_id := "sess1" }],
    conversation_messages := [] }

/-- Result files where only `hipaa_tests.json` parses, and it holds a
negative `numPassedTests` (well-formed JSON, malformed as a report). -/
def malformedHipaaInputs : ResultsInputs :=
  { deployment := none, security := none,
    hipaa := some { success := true, numPassedTests := -5, numTotalTests := 1,
                    endpoints := none },
    performance := none, integration := none }

/-- A run in which no result file can be read. -/
def allNoneInputs : ResultsInputs :=
  { deployment := none, security := none, hipaa := none,
    performance := none, integration := none }

/-! ## Helper lemmas -/

theorem replayRows_fst_false (keyOf : α → String) (raises : α → Bool) :
    ∀ (rows tbl : List α) (r : α), r ∈ rows → raises r = true →
      (replayRows keyOf raises tbl rows).1 = false := by
  intro rows
  induction rows with
  | nil => intro tbl r hr; cases hr
  | cons row rest ih =>
      intro tbl r hr hra
      by_cases h : raises row = true
      · simp [replayRows, h]
      · rcases List.mem_cons.mp hr with h1 | h1
        · subst h1; exact absurd hra h
        · simp only [replayRows, Bool.not_eq_true] at h ⊢
          rw [h]
          exact ih _ r h1 hra

theorem replayRows_noraise_append (keyOf : α → String) :
    ∀ (rows tbl : List α), (∀ x ∈ tbl, ∀ y ∈ rows, keyOf x ≠ keyOf y) →
      (rows.map keyOf).Nodup →
      replayRows keyOf (fun _ => false) tbl rows = (true, tbl ++ rows) := by
  intro rows
  induction rows with
  | nil => intro tbl _ _; simp [replayRows]
  | cons row rest ih =>
      intro tbl hdisj hnodup
      have hany : tbl.any (fun r => keyOf r = keyOf row) = false := by
        simp only [List.any_eq_false, decide_eq_true_eq]
        intro x hx
        exact hdisj x hx row (List.mem_cons_self _ _)
      have hins : insert_on_conflict keyOf tbl row = tbl ++ [row] := by
        simp [insert_on_conflict, hany]
      simp only [List.map_cons, List.nodup_cons] at hnodup
      have hdisj2 : ∀ x ∈ tbl ++ [row], ∀ y ∈ rest, keyOf x ≠ keyOf y := by
        intro x hx y hy
        rcases List.mem_append.mp hx with h1 | h1
        · exact hdisj x h1 y (List.mem_cons_of_mem _ hy)
        · rcases List.mem_singleton.mp h1 with rfl
          intro hxy
          exact hnodup.1 (hxy ▸ List.mem_map_of_mem keyOf hy)
      have := ih (tbl ++ [row]) hdisj2 hnodup.2
      simp only [replayRows, hins, this]
      simp

theorem replayRows_into_empty (keyOf : α → String) (rows : List α)
    (hnodup : (rows.map keyOf).Nodup) :
    replayRows keyOf (fun _ => false) [] rows = (true, rows) := by
  have := replayRows_noraise_append keyOf rows [] (by intro x hx; cases hx) hnodup
  simpa using this

theorem replayRows_all_conflict (keyOf : α → String) :
    ∀ (rows tbl : List α), (∀ y ∈ rows, ∃ x ∈ tbl, keyOf x = keyOf y) →
      replayRows keyOf (fun _ => false) tbl rows = (true, tbl) := by
  intro rows
  induction rows with
  | nil => intro tbl _; simp [replayRows]
  | cons row rest ih =>
      intro tbl hconf
      have hany : tbl.any (fun r => keyOf r = keyOf row) = true := by
        rcases hconf row (List.mem_cons_self _ _) with ⟨x, hx, hxy⟩
        simp only [List.any_eq_true, decide_eq_true_eq]
        exact ⟨x, hx, hxy⟩
      have hins : insert_on_conflict keyOf tbl row = tbl := by
        simp [insert_on_conflict, hany]
      simp only [replayRows, hins]
      exact ih tbl (fun y hy => hconf y (List.mem_cons_of_mem _ hy))

theorem replayRows_into_self (keyOf : α → String) (rows : List α) :
    replayRows keyOf (fun _ => false) rows rows = (true, rows) :=
  replayRows_all_conflict keyOf rows rows (fun y hy => ⟨y, hy, rfl⟩)

/-! ## C4: a missing migration file -/

/-- C4 counterexample: with no file at the given path, the
`FileNotFoundError` is raised inside the `try` body but
`execute_migration_file` itself returns `False` normally - the claim
that the exception propagates unhandled out of the function is false at
this input. -/
theorem missing_migration_file_cex :
    execute_migration_file_body (fun _ => none) (fun _ => true)
        "migrations/000_add_pgvector.sql"
      = Except.error (PyExc.fileNotFound "migrations/000_add_pgvector.sql") ∧
    execute_migration_file (fun _ => none) (fun _ => true)
        "migrations/000_add_pgvector.sql"
      = Except.ok false := ⟨rfl, rfl⟩

/-- C4 (amended): when `execute_migration_file` is called with a path
naming a file that does not exist, the file-not-found exception raised
by `open` is caught by the blanket `except Exception` handler, which
logs it and reports it as a pipeline error (a `False` return); it never
propagates out of the function. -/
theorem missing_migration_file_reported (fs : String → Option String)
    (sqlOk : String → Bool) (path : String) (h : fs path = none) :
    execute_migration_file_body fs sqlOk path = Except.error (PyExc.fileNotFound path) ∧
    execute_migration_file fs sqlOk path = Except.ok false := by
  have hbody : execute_migration_file_body fs sqlOk path
      = Except.error (PyExc.fileNotFound path) := by
    simp only [execute_migration_file_body, openRead, h]
    rfl
  exact ⟨hbody, by simp [execute_migration_file, hbody]⟩

/-- Witness for C4 at a concrete missing file. -/
theorem missing_migration_file_witness :
    execute_migration_file_body (fun _ => none) (fun _ => false)
        "migrations/001_create_rag_schema.sql"
      = Except.error (PyExc.fileNotFound "migrations/001_create_rag_schema.sql") ∧
    execute_migration_file (fun _ => none) (fun _ => false)
        "migrations/001_create_rag_schema.sql"
      = Except.ok false :=
  missing_migration_file_reported (fun _ => none) (fun _ => false)
    "migrations/001_create_rag_schema.sql" rfl

/-! ## C5: validate_environment -/

/-- C5: `validate_environment` raises if and only if at least one of the
fixed required configuration variables is absent (unset or empty); when
all are present it returns normally; and when it raises, the
orchestrator construction performs no database operation at all (the
connection is only attempted after validation succeeds). -/
theorem validate_environment_raises_iff_missing_var
    (getenv : String → Option String) (connectOk : Bool) :
    (validate_environment getenv = Except.ok () ↔
      ∀ v ∈ required_vars, envFalsy (getenv v) = false) ∧
    ((∃ v ∈ required_vars, envFalsy (getenv v) = true) →
      ∃ e, validate_environment getenv = Except.error e) ∧
    (validate_environment getenv ≠ Except.ok () →
      (orchestrator_init getenv connectOk).dbOps = 0) := by
  have hiff : validate_environment getenv = Except.ok () ↔
      ∀ v ∈ required_vars, envFalsy (getenv v) = false := by
    unfold validate_environment missing_vars
    constructor
    · intro h
      by_cases hf : required_vars.filter (fun v => envFalsy (getenv v)) = []
      · intro v hv
        have := (List.filter_eq_nil_iff).mp hf v hv
        simpa using this
      · simp [hf] at h
    · intro hall
      have hf : required_vars.filter (fun v => envFalsy (getenv v)) = [] :=
        (List.filter_eq_nil_iff).mpr (fun v hv => by simp [hall v hv])
      simp [hf]
  refine ⟨hiff, ?_, ?_⟩
  · intro ⟨v, hv, hvf⟩
    by_cases h : validate_environment getenv = Except.ok ()
    · have := hiff.mp h v hv
      rw [hvf] at this
      cases this
    · unfold validate_environment at h ⊢
      by_cases hf : missing_vars getenv = []
      · simp [hf] at h
      · exact ⟨"Missing environment variables", by simp [hf]⟩
  · intro h
    unfold orchestrator_init
    cases hv : validate_environment getenv with
    | error e => simp
    | ok u => cases u; exact absurd hv h

/-! ## C6: missing pgvector extension halts before any schema file -/

/-- C6: for a database lacking the vector extension,
`check_pgvector_extension` returns false and `run_migration` returns
failure with an empty schema-file execution trace - no schema-migration
file is ever executed. -/
theorem missing_pgvector_halts_before_schema_files (env : MigEnv)
    (h : env.pgvectorRow = false) :
    check_pgvector_extension env.pgvectorRow env.pgvectorQueryRaises = false ∧
    run_migration env = (false, []) := by
  have hchk : check_pgvector_extension env.pgvectorRow env.pgvectorQueryRaises = false := by
    unfold check_pgvector_extension
    cases env.pgvectorQueryRaises <;> simp [h]
  refine ⟨hchk, ?_⟩
  unfold run_migration run_migration_with test_supabase_connection
  cases hc : env.connectionOk <;> simp [hchk]

/-- Witness for C6: a concrete healthy environment whose database lacks
the vector extension. -/
theorem missing_pgvector_witness :
    check_pgvector_extension envNoVector.pgvectorRow envNoVector.pgvectorQueryRaises = false ∧
    run_migration envNoVector = (false, []) :=
  missing_pgvector_halts_before_schema_files envNoVector rfl

/-! ## C7: backup_existing_data frame -/

/-- C7: `backup_existing_data` issues only read statements against the
database (its state is unchanged), skips each table of its fixed list
that does not exist (the backup entry stays empty, no error), and writes
exactly one timestamped backup file before returning the in-memory
backup structure. -/
theorem backup_existing_data_frame (now : String) (db : Db) :
    (∀ op ∈ (backup_existing_data now db).ops, SqlOp.isRead op = true) ∧
    (backup_existing_data now db).dbAfter = db ∧
    (backup_existing_data now db).filesWritten = [backup_file_name now] ∧
    (db.rag_documents = none → (backup_existing_data now db).data.rag_documents = []) ∧
    (db.user_sessions = none → (backup_existing_data now db).data.user_sessions = []) ∧
    (db.conversation_messages = none →
      (backup_existing_data now db).data.conversation_messages = []) := by
  obtain ⟨r, u, c⟩ := db
  cases r <;> cases u <;> cases c <;>
    simp [backup_existing_data, backupOf, SqlOp.isRead]

/-! ## C1: schema files run strictly in order, aborting at a failure -/

theorem runSchemaPhase_trace_take (fileOk : String → Bool) :
    ∀ files : List String, ∃ k, (runSchemaPhase fileOk files).2 = files.take k := by
  intro files
  induction files with
  | nil => exact ⟨0, rfl⟩
  | cons f rest ih =>
      by_cases h : fileOk f
      · rcases ih with ⟨k, hk⟩
        exact ⟨k + 1, by simp [runSchemaPhase, h, hk]⟩
      · exact ⟨1, by simp [runSchemaPhase, h]⟩

theorem runSchemaPhase_first_failure (fileOk : String → Bool) :
    ∀ (files : List String) (i : Nat) (hi : i < files.length),
      fileOk (files.get ⟨i, hi⟩) = false →
      (∀ (j : Nat) (hj : j < files.length), j < i → fileOk (files.get ⟨j, hj⟩) = true) →
      runSchemaPhase fileOk files = (false, files.take (i + 1)) := by
  intro files
  induction files with
  | nil => intro i hi; cases hi
  | cons f rest ih =>
      intro i hi hfail hbefore
      cases i with
      | zero =>
          simp only [List.get] at hfail
          simp [runSchemaPhase, hfail]
      | succ n =>
          have hf : fileOk f = true := by
            have := hbefore 0 (by simp) (Nat.succ_pos n)
            simpa using this
          have hn : n < rest.length := by simpa using hi
          have hrest := ih n hn (by simpa using hfail)
            (fun j hj hjn => by
              have := hbefore (j + 1) (by simpa using Nat.succ_lt_succ hj)
                (Nat.succ_lt_succ hjn)
              simpa using this)
          simp [runSchemaPhase, hf, hrest]

/-- C1: for every run of `run_migration` (generalized over the ordered
schema-file list), the executed files form an initial segment of the
list (strict list order, no skipping), and when `execute_migration_file`
fails at position `i` while every earlier position succeeds, no file at
a position greater than `i` is ever executed and the run returns
failure. -/
theorem run_migration_executes_files_in_order_until_failure (env : MigEnv)
    (files : List String) (i : Nat) (hi : i < files.length)
    (hfail : execute_migration_file_ok env.fs env.sqlOk (files.get ⟨i, hi⟩) = false)
    (hbefore : ∀ (j : Nat) (hj : j < files.length), j < i →
      execute_migration_file_ok env.fs env.sqlOk (files.get ⟨j, hj⟩) = true) :
    (∃ k, (run_migration_with env files).2 = files.take k) ∧
    (run_migration_with env files).2.length ≤ i + 1 ∧
    (run_migration_with env files).1 = false := by
  have hschema := runSchemaPhase_first_failure
    (execute_migration_file_ok env.fs env.sqlOk) files i hi hfail hbefore
  unfold run_migration_with test_supabase_connection
  cases hc : env.connectionOk
  · exact ⟨⟨0, by simp⟩, by simp, by simp⟩
  · cases hchk : check_pgvector_extension env.pgvectorRow env.pgvectorQueryRaises
    · exact ⟨⟨0, by simp [hchk]⟩, by simp [hchk], by simp [hchk]⟩
    · refine ⟨⟨i + 1, by simp [hchk, hschema]⟩, ?_, by simp [hchk, hschema]⟩
      simp only [hchk, hschema]
      simp [List.length_take_le (i + 1) files]

/-- Witness for C1: over `sampleFs` only the first of the four hard-coded
migration files exists, so the run fails at position 1 and executes
exactly the first two files. -/
theorem run_migration_abort_witness :
    (∃ k, (run_migration_with envW migration_files).2 = migration_files.take k) ∧
    (run_migration_with envW migration_files).2.length ≤ 1 + 1 ∧
    (run_migration_with envW migration_files).1 = false :=
  run_migration_executes_files_in_order_until_failure envW migration_files 1
    (by decide) (by decide)
    (by
      intro j hj hj1
      have hj0 : j = 0 := Nat.lt_one_iff.mp hj1
      subst hj0
      rfl)

/-! ## C3: a replay failure aborts the remaining tables -/

theorem replayTable_fst_false (keyOf : α → String) (raises : α → Bool)
    (rows : List α) (tbl : Option (List α)) (r : α) (hr : r ∈ rows)
    (hra : raises r = true) :
    (replayTable keyOf raises rows tbl).1 = false := by
  have hne : rows.isEmpty = false := by
    cases rows with
    | nil => cases hr
    | cons a l => rfl
  cases tbl with
  | none => simp [replayTable, hne]
  | some t =>
      simp only [replayTable, hne, Bool.false_eq_true, if_false]
      exact replayRows_fst_false keyOf raises rows t r hr hra

/-- C3 counterexample: the backup holds one `rag_documents` row whose
insert raises and one `user_sessions` row whose insert would succeed;
`migrate_existing_embeddings` returns false and the `user_sessions`
table stays empty - the later table's rows are NOT replayed, refuting
the claim that a failure on one table does not abort the remaining
tables. -/
theorem migrate_first_table_failure_skips_user_sessions :
    (migrate_existing_embeddings (fun _ => true) (fun _ => false) backupX freshDb).1
      = false ∧
    (migrate_existing_embeddings (fun _ => true) (fun _ => false) backupX freshDb).2.user_sessions
      = some [] := ⟨rfl, rfl⟩

/-- C3 (amended): a failure while replaying the rows of one table is
caught by the single exception handler of `migrate_existing_embeddings`,
which logs it and returns false - but it DOES abort the replay of the
remaining tables: whenever some `rag_documents` row's insert raises, the
`user_sessions` table is left exactly as it was (its rows are never
replayed).  Only `run_migration` continues past the failure, demoting it
to a warning. -/
theorem migrate_table_failure_aborts_remaining (rr : RagDoc → Bool)
    (sr : UserSession → Bool) (b : BackupData) (db : Db) (r : RagDoc)
    (hr : r ∈ b.rag_documents) (hra : rr r = true) :
    (migrate_existing_embeddings rr sr b db).1 = false ∧
    (migrate_existing_embeddings rr sr b db).2.user_sessions = db.user_sessions := by
  have h1 := replayTable_fst_false RagDoc.id rr b.rag_documents db.rag_documents r hr hra
  unfold migrate_existing_embeddings
  simp [h1]

/-- Witness for C3 at the concrete backup `backupX`. -/
theorem migrate_table_failure_witness :
    (migrate_existing_embeddings (fun _ => true) (fun _ => false) backupX roundtripDb).1
      = false ∧
    (migrate_existing_embeddings (fun _ => true) (fun _ => false) backupX roundtripDb).2.user_sessions
      = roundtripDb.user_sessions :=
  migrate_table_failure_aborts_remaining (fun _ => true) (fun _ => false) backupX
    roundtripDb { id := "d1" } (List.mem_cons_self _ _) rfl

/-! ## C9: conversation_messages are backed up but never replayed -/

theorem migrate_conv_unchanged (rr : RagDoc → Bool) (sr : UserSession → Bool)
    (b : BackupData) (db : Db) :
    (migrate_existing_embeddings rr sr b db).2.conversation_messages
      = db.conversation_messages := by
  unfold migrate_existing_embeddings
  dsimp only
  split <;> rfl

/-- C9: `conversation_messages` is one of the fixed tables that
`backup_existing_data` captures (up to the row cap), yet
`migrate_existing_embeddings` never replays it: for every backup and
every database state, the replay leaves the `conversation_messages`
table exactly as it was - the backed-up rows are silently dropped from
the replay. -/
theorem conversation_messages_dropped_from_replay (now : String) (db : Db) :
    "conversation_messages" ∈ tables_to_backup ∧
    (∀ rows, db.conversation_messages = some rows →
      (backup_existing_data now db).data.conversation_messages
        = rows.take backup_row_limit) ∧
    (∀ (rr : RagDoc → Bool) (sr : UserSession → Bool) (b : BackupData) (db0 : Db),
      (migrate_existing_embeddings rr sr b db0).2.conversation_messages
        = db0.conversation_messages) := by
  refine ⟨by simp [tables_to_backup], ?_, ?_⟩
  · intro rows h
    simp [backup_existing_data, backupOf, h]
  · intro rr sr b db0
    exact migrate_conv_unchanged rr sr b db0

/-! ## C2: backup-then-replay round trip -/

theorem replayTable_into_empty (keyOf : α → String) (rows : List α)
    (hnodup : (rows.map keyOf).Nodup) :
    replayTable keyOf (fun _ => false) rows (some []) = (true, some rows) := by
  cases hrows : rows.isEmpty
  · simp only [replayTable, hrows, Bool.false_eq_true, if_false,
      replayRows_into_empty keyOf rows hnodup]
  · have : rows = [] := List.isEmpty_iff.mp hrows
    subst this
    simp [replayTable]

theorem replayTable_self (keyOf : α → String) (rows : List α) :
    replayTable keyOf (fun _ => false) rows (some rows) = (true, some rows) := by
  cases hrows : rows.isEmpty
  · simp only [replayTable, hrows, Bool.false_eq_true, if_false,
      replayRows_into_self keyOf rows]
  · have : rows = [] := List.isEmpty_iff.mp hrows
    subst this
    simp [replayTable]

/-- C2 counterexample: a pre-existing `conversation_messages` table with
one row (within the row cap).  `backup_existing_data` captures the row,
but after `migrate_existing_embeddings` the freshly migrated table holds
zero rows, not one - refuting the claim for any choice of pre-existing
table. -/
theorem backup_replay_drops_conversation_messages :
    (backup_existing_data "t" convOnlyDb).data.conversation_messages
      = [{ id := "m1" }] ∧
    (migrate_existing_embeddings (fun _ => false) (fun _ => false)
        (backup_existing_data "t" convOnlyDb).data freshDb).2.conversation_messages
      = some [] := ⟨rfl, rfl⟩

/-- C2 (amended): for the two tables the replay actually covers -
`rag_documents` (conflict key `id`) and `user_sessions` (conflict key
`session_id`) - with pairwise-distinct conflict keys and row counts
within the row cap, `backup_existing_data` followed by
`migrate_existing_embeddings` against a freshly migrated empty database
leaves each table with exactly its original N rows, and replaying the
same backup a second time still yields exactly N rows, not 2N (the
upsert conflicts on every key and no-ops).  A pre-existing
`conversation_messages` table is NOT restored (see the
counterexample). -/
theorem backup_replay_roundtrip_preserves_rows (now : String) (db : Db)
    (R : List RagDoc) (S : List UserSession)
    (hR : db.rag_documents = some R) (hS : db.user_sessions = some S)
    (hRn : (R.map RagDoc.id).Nodup) (hSn : (S.map UserSession.session_id).Nodup)
    (hRlen : R.length ≤ backup_row_limit) (hSlen : S.length ≤ backup_row_limit) :
    migrate_existing_embeddings (fun _ => false) (fun _ => false)
        (backup_existing_data now db).data freshDb
      = (true, { rag_documents := some R, user_sessions := some S,
                 conversation_messages := some [] }) ∧
    migrate_existing_embeddings (fun _ => false) (fun _ => false)
        (backup_existing_data now db).data
        (migrate_existing_embeddings (fun _ => false) (fun _ => false)
          (backup_existing_data now db).data freshDb).2
      = (true, { rag_documents := some R, user_sessions := some S,
                 conversation_messages := some [] }) ∧
    ((migrate_existing_embeddings (fun _ => false) (fun _ => false)
        (backup_existing_data now db).data freshDb).2.rag_documents.getD []).length
      = R.length ∧
    ((migrate_existing_embeddings (fun _ => false) (fun _ => false)
        (backup_existing_data now db).data freshDb).2.user_sessions.getD []).length
      = S.length := by
  have hbr : (backup_existing_data now db).data.rag_documents = R := by
    simp [backup_existing_data, backupOf, hR, List.take_of_length_le hRlen]
  have hbs : (backup_existing_data now db).data.user_sessions = S := by
    simp [backup_existing_data, backupOf, hS, List.take_of_length_le hSlen]
  have m1 : migrate_existing_embeddings (fun _ => false) (fun _ => false)
      (backup_existing_data now db).data freshDb
      = (true, { rag_documents := some R, user_sessions := some S,
                 conversation_messages := some [] }) := by
    unfold migrate_existing_embeddings
    simp only [hbr, hbs, freshDb, replayTable_into_empty RagDoc.id R hRn,
      replayTable_into_empty UserSession.session_id S hSn, if_true]
  have m2 : migrate_existing_embeddings (fun _ => false) (fun _ => false)
      (backup_existing_data now db).data
      ({ rag_documents := some R, user_sessions := some S,
         conversation_messages := some [] } : Db)
      = (true, { rag_documents := some R, user_sessions := some S,
                 conversation_messages := some [] }) := by
    unfold migrate_existing_embeddings
    simp only [hbr, hbs, replayTable_self RagDoc.id R,
      replayTable_self UserSession.session_id S, if_true]
  refine ⟨m1, ?_, ?_, ?_⟩
  · rw [m1]
    exact m2
  · rw [m1]
    rfl
  · rw [m1]
    rfl

/-- Witness for C2: a pre-existing database with two RAG documents and
one user session round-trips through backup and (double) replay. -/
theorem backup_replay_roundtrip_witness :
    migrate_existing_embeddings (fun _ => false) (fun _ => false)
        (backup_existing_data "t" roundtripDb).data freshDb
      = (true, { rag_documents := some [{ id := "a" }, { id := "b" }],
                 user_sessions := some [{ id := "i1", session_id := "s1" }],
                 conversation_messages := some [] }) ∧
    migrate_existing_embeddings (fun _ => false) (fun _ => false)
        (backup_existing_data "t" roundtripDb).data
        (migrate_existing_embeddings (fun _ => false) (fun _ => false)
          (backup_existing_data "t" roundtripDb).data freshDb).2
      = (true, { rag_documents := some [{ id := "a" }, { id := "b" }],
                 user_sessions := some [{ id := "i1", session_id := "s1" }],
                 conversation_messages := some [] }) ∧
    ((migrate_existing_embeddings (fun _ => false) (fun _ => false)
        (backup_existing_data "t" roundtripDb).data freshDb).2.rag_documents.getD []).length
      = ([{ id := "a" }, { id := "b" }] : List RagDoc).length ∧
    ((migrate_existing_embeddings (fun _ => false) (fun _ => false)
        (backup_existing_data "t" roundtripDb).data freshDb).2.user_sessions.getD []).length
      = ([{ id := "i1", session_id := "s1" }] : List UserSession).length :=
  backup_replay_roundtrip_preserves_rows "t" roundtripDb
    [{ id := "a" }, { id := "b" }] [{ id := "i1", session_id := "s1" }]
    rfl rfl (by decide) (by decide) (by decide) (by decide)

/-! ## C8: what aborts a run, and the process exit code -/

/-- C8: `run_migration` returns success exactly when the connection
check, the pgvector check and every schema file succeed - the outcome of
the data-replay phase and the contents of the validation report do not
appear in the result at all; and the driving `main` exits 0 exactly when
the orchestrator was constructed without raising and `run_migration`
returned success, and exits 1 otherwise. -/
theorem run_migration_result_and_exit_code (env : MigEnv)
    (getenv : String → Option String) (connectOk : Bool) :
    (run_migration env).1 =
      (test_supabase_connection env.connectionOk &&
        (check_pgvector_extension env.pgvectorRow env.pgvectorQueryRaises &&
          (runSchemaPhase (execute_migration_file_ok env.fs env.sqlOk)
            migration_files).1)) ∧
    (main_exit getenv connectOk env = 0 ↔
      ((orchestrator_init getenv connectOk).outcome = Except.ok () ∧
        (run_migration env).1 = true)) ∧
    (main_exit getenv connectOk env = 0 ∨ main_exit getenv connectOk env = 1) := by
  have h1 : (run_migration env).1 =
      (test_supabase_connection env.connectionOk &&
        (check_pgvector_extension env.pgvectorRow env.pgvectorQueryRaises &&
          (runSchemaPhase (execute_migration_file_ok env.fs env.sqlOk)
            migration_files).1)) := by
    unfold run_migration run_migration_with test_supabase_connection
    cases hc : env.connectionOk
    · simp
    · cases hchk : check_pgvector_extension env.pgvectorRow env.pgvectorQueryRaises
      · simp [hchk]
      · cases hs : (runSchemaPhase (execute_migration_file_ok env.fs env.sqlOk)
            migration_files).1
        · simp [hchk, hs]
        · simp [hchk, hs]
  refine ⟨h1, ?_, ?_⟩
  · unfold main_exit
    cases ho : (orchestrator_init getenv connectOk).outcome with
    | error e => simp [ho]
    | ok u =>
        cases u
        cases hr : (run_migration env).1
        · simp [hr]
        · simp [hr]
  · unfold main_exit
    cases ho : (orchestrator_init getenv connectOk).outcome with
    | error e => simp
    | ok u =>
        cases hr : (run_migration env).1
        · simp [hr]
        · simp [hr]

/-! ## C10: range of the confidence score -/

theorem countTrue_le_length (l : List Bool) : countTrue l ≤ l.length :=
  List.length_filter_le _ _

theorem ratio_nonneg (l : List Bool) :
    (0 : Rat) ≤ (countTrue l : Rat) / (l.length : Rat) :=
  div_nonneg (by positivity) (by positivity)

theorem ratio_le_one (l : List Bool) :
    (countTrue l : Rat) / (l.length : Rat) ≤ 1 := by
  rcases Nat.eq_zero_or_pos l.length with h | h
  · simp [h]
  · rw [div_le_one (by exact_mod_cast h)]
    exact_mod_cast countTrue_le_length l

theorem min100_bounds (x : Rat) (hx : 0 ≤ x) :
    0 ≤ min x 100 ∧ min x 100 ≤ 100 :=
  ⟨le_min hx (by norm_num), min_le_right _ _⟩

theorem analyze_deployment_range (d : Option DeploymentInput) :
    0 ≤ analyze_deployment_results d ∧ analyze_deployment_results d ≤ 100 := by
  cases d with
  | none => simp [analyze_deployment_results]
  | some d =>
      obtain ⟨hstat, tt, api⟩ := d
      cases api with
      | none => simp [analyze_deployment_results]
      | some api =>
          cases tt with
          | none =>
              simp only [analyze_deployment_results]
              apply min100_bounds
              split_ifs <;> positivity
          | some t =>
              simp only [analyze_deployment_results]
              apply min100_bounds
              split_ifs <;> positivity

theorem analyze_security_range (s : Option SecurityInput) :
    0 ≤ analyze_security_results s ∧ analyze_security_results s ≤ 100 := by
  cases s with
  | none => simp [analyze_security_results]
  | some s =>
      obtain ⟨hl, raw⟩ := s
      cases raw with
      | none => simp [analyze_security_results]
      | some raw =>
          simp only [analyze_security_results]
          apply min100_bounds
          split_ifs <;> positivity

theorem hipaaEndpointScore_bounds (e : Option (List Bool)) :
    0 ≤ hipaaEndpointScore e ∧ hipaaEndpointScore e ≤ 30 := by
  cases e with
  | none => simp [hipaaEndpointScore]
  | some lines =>
      simp only [hipaaEndpointScore]
      split_ifs with h
      · constructor
        · positivity
        · linarith [ratio_le_one lines]
      · norm_num

theorem analyze_hipaa_range (h? : Option HipaaInput)
    (hc : ∀ h, h? = some h → 0 ≤ h.numPassedTests ∧ 0 ≤ h.numTotalTests) :
    0 ≤ analyze_hipaa_results h? ∧ analyze_hipaa_results h? ≤ 100 := by
  cases h? with
  | none => simp [analyze_hipaa_results]
  | some h =>
      obtain ⟨hp, ht⟩ := hc h rfl
      obtain ⟨he0, he30⟩ := hipaaEndpointScore_bounds h.endpoints
      simp only [analyze_hipaa_results]
      split_ifs with hs hz
      · norm_num
      · apply min100_bounds
        have hpq : (0 : Rat) ≤ (h.numPassedTests : Rat) := by exact_mod_cast hp
        have htq : (0 : Rat) ≤ (h.numTotalTests : Rat) := by exact_mod_cast ht
        have hdiv : (0 : Rat) ≤ (h.numPassedTests : Rat) / (h.numTotalTests : Rat) :=
          div_nonneg hpq htq
        linarith
      · apply min100_bounds
        linarith

theorem analyze_performance_range (p : Option PerformanceInput) :
    0 ≤ analyze_performance_results p ∧ analyze_performance_results p ≤ 100 := by
  cases p with
  | none => simp [analyze_performance_results]
  | some p =>
      obtain ⟨k6, fb⟩ := p
      simp only [analyze_performance_results]
      apply min100_bounds
      cases k6 with
      | some k =>
          obtain ⟨a, q, c⟩ := k
          cases a <;> cases q <;> cases c <;> dsimp only <;>
            (try split_ifs) <;> norm_num
      | none =>
          cases fb with
          | none => norm_num
          | some t =>
              cases t with
              | none => norm_num
              | some v =>
                  dsimp only
                  split_ifs <;> norm_num

theorem analyze_integration_range (l : Option (List Bool)) :
    0 ≤ analyze_integration_results l ∧ analyze_integration_results l ≤ 100 := by
  cases l with
  | none => simp [analyze_integration_results]
  | some lines =>
      simp only [analyze_integration_results]
      split_ifs with h
      · exact ⟨by positivity, by linarith [ratio_le_one lines]⟩
      · norm_num

theorem calculate_confidence_score_eq (r : ResultsInputs) :
    calculate_confidence_score r =
      analyze_deployment_results r.deployment * 0.20 +
      (analyze_security_results r.security * 0.20 +
        (analyze_hipaa_results r.hipaa * 0.25 +
          (analyze_performance_results r.performance * 0.20 +
            (analyze_integration_results r.integration * 0.15 + 0)))) := rfl

/-- C10 counterexample: result files in which only `hipaa_tests.json`
parses and it holds `numPassedTests = -5` (well-formed JSON, so no
exception is raised) drive the overall confidence score below 0,
refuting the claim that it lies between 0 and 100 for every set of
input files including malformed ones. -/
theorem confidence_score_negative_on_malformed_hipaa :
    calculate_confidence_score malformedHipaaInputs < 0 := by
  norm_num [calculate_confidence_score, weights, categoryScore, analyze_hipaa_results,
    hipaaEndpointScore, analyze_deployment_results, analyze_security_results,
    analyze_performance_results, analyze_integration_results, malformedHipaaInputs]

/-- C10 (amended): the five category weights sum to exactly 1, and for
every set of input result files (including missing or unreadable ones)
whose parsed HIPAA test counts are nonnegative, every category analyzer
returns a value in the range 0 to 100 and the overall confidence score
lies between 0 and 100 inclusive.  (Without the nonnegativity proviso
the HIPAA analyzer, whose `min` clamps only from above, can return a
negative value - see the counterexample.) -/
theorem confidence_score_range (r : ResultsInputs) (hc : hipaaCountsNonneg r) :
    (weights.map Prod.snd).sum = 1 ∧
    (0 ≤ analyze_deployment_results r.deployment ∧
      analyze_deployment_results r.deployment ≤ 100) ∧
    (0 ≤ analyze_security_results r.security ∧
      analyze_security_results r.security ≤ 100) ∧
    (0 ≤ analyze_hipaa_results r.hipaa ∧ analyze_hipaa_results r.hipaa ≤ 100) ∧
    (0 ≤ analyze_performance_results r.performance ∧
      analyze_performance_results r.performance ≤ 100) ∧
    (0 ≤ analyze_integration_results r.integration ∧
      analyze_integration_results r.integration ≤ 100) ∧
    (0 ≤ calculate_confidence_score r ∧ calculate_confidence_score r ≤ 100) := by
  obtain ⟨d0, d1⟩ := analyze_deployment_range r.deployment
  obtain ⟨s0, s1⟩ := analyze_security_range r.security
  obtain ⟨h0, h1⟩ := analyze_hipaa_range r.hipaa hc
  obtain ⟨p0, p1⟩ := analyze_performance_range r.performance
  obtain ⟨i0, i1⟩ := analyze_integration_range r.integration
  refine ⟨by norm_num [weights], ⟨d0, d1⟩, ⟨s0, s1⟩, ⟨h0, h1⟩, ⟨p0, p1⟩, ⟨i0, i1⟩, ?_, ?_⟩
  · rw [calculate_confidence_score_eq]
    nlinarith
  · rw [calculate_confidence_score_eq]
    nlinarith

/-- Witness for C10 at a run in which no result file can be read. -/
theorem confidence_score_range_witness :
    (weights.map Prod.snd).sum = 1 ∧
    (0 ≤ analyze_deployment_results allNoneInputs.deployment ∧
      analyze_deployment_results allNoneInputs.deployment ≤ 100) ∧
    (0 ≤ analyze_security_results allNoneInputs.security ∧
      analyze_security_results allNoneInputs.security ≤ 100) ∧
    (0 ≤ analyze_hipaa_results allNoneInputs.hipaa ∧
      analyze_hipaa_results allNoneInputs.hipaa ≤ 100) ∧
    (0 ≤ analyze_performance_results allNoneInputs.performance ∧
      analyze_performance_results allNoneInputs.performance ≤ 100) ∧
    (0 ≤ analyze_integration_results allNoneInputs.integration ∧
      analyze_integration_results allNoneInputs.integration ≤ 100) ∧
    (0 ≤ calculate_confidence_score allNoneInputs ∧
      calculate_confidence_score allNoneInputs ≤ 100) :=
  confidence_score_range allNoneInputs (fun _ hh => Option.noConfusion hh)

end Biospark
